import Mathlib

/-!
Verification of the AtoZ bot repository: a shallow embedding of the
bot-control state machine (`backend/app/api/bot_control.py`), the job
evaluator (`bot/integrated_bot.py`), and the worker loops
(`bot/atoz_bot.py`, `bot/real_atoz_bot.py`), together with proofs and
refutations of the specification's claims about them.
-/

/-! ## String helpers (Python `in`, `str.isdigit` filtering, int parsing) -/

/-- Character-list version of Python's substring test: does `hay` start with `needle`? -/
def charsHasPre : List Char → List Char → Bool
  | [], _ => true
  | _ :: _, [] => false
  | a :: as, b :: bs => a == b && charsHasPre as bs

/-- Does `hay` contain `needle` as a contiguous run (Python `needle in hay`)? -/
def charsHasSub (needle : List Char) : List Char → Bool
  | [] => needle.isEmpty
  | b :: bs => charsHasPre needle (b :: bs) || charsHasSub needle bs

/-- Python `needle in hay` for strings. -/
def strContains (hay needle : String) : Bool :=
  charsHasSub needle.toList hay.toList

/-- Python `s.lower()` (ASCII inputs). -/
def pyLower (s : String) : String :=
  ⟨s.toList.map Char.toLower⟩

/-- Python `s.strip()`: drop whitespace from both ends. -/
def pyStrip (s : String) : String :=
  ⟨((s.toList.dropWhile Char.isWhitespace).reverse.dropWhile
      Char.isWhitespace).reverse⟩

/-- Split on a single-character separator (Python `s.split(sep)` for the
one-character separators used here). -/
def splitOnCharAux (sep : Char) : List Char → List Char → List (List Char)
  | [], acc => [acc.reverse]
  | c :: cs, acc =>
    if c == sep then acc.reverse :: splitOnCharAux sep cs []
    else splitOnCharAux sep cs (c :: acc)

/-- Python `s.split(sep)` for a one-character `sep`. -/
def pySplitOn (s : String) (sep : Char) : List String :=
  (splitOnCharAux sep s.toList []).map (fun l => ⟨l⟩)

/-- Value of a nonempty all-digit string, `none` otherwise.
Models `float(s)` on the output of `''.join(filter(str.isdigit, ...))`
(which is an unsigned integer literal when nonempty, and raises
`ValueError` when empty). -/
def parseDigits (s : String) : Option Nat :=
  if s.length > 0 && s.toList.all Char.isDigit then
    some (s.toList.foldl (fun n c => n * 10 + (c.toNat - 48)) 0)
  else
    none

/-- The digit characters of `s`, in order: `filter(str.isdigit, s)`. -/
def digitsOf (s : String) : String :=
  ⟨s.toList.filter Char.isDigit⟩

/-- Models `float(''.join(filter(str.isdigit, duration)))` from
`should_accept_job` step 5: `none` when no digit occurs (`ValueError`). -/
def parseDurationNum (s : String) : Option Nat :=
  parseDigits (digitsOf s)

/-! ## Calendar arithmetic for `datetime.strptime("%Y-%m-%d %H:%M")` -/

/-- Gregorian leap-year test, as validated by `datetime`. -/
def isLeap (y : Nat) : Bool :=
  (y % 4 == 0 && y % 100 != 0) || y % 400 == 0

/-- Days in a month, as validated by the `datetime` constructor. -/
def daysInMonth (y m : Nat) : Nat :=
  if m == 2 then (if isLeap y then 29 else 28)
  else if m == 4 || m == 6 || m == 9 || m == 11 then 30
  else 31

/-- A strictly increasing key for the timestamp (y, m, d, h, min): two parsed
appointment datetimes compare (with `<`) exactly as their keys compare. -/
def apptKeyVal (y m d h mi : Nat) : Nat :=
  (((y * 12 + (m - 1)) * 31 + (d - 1)) * 24 + h) * 60 + mi

/-- Models `datetime.strptime(f"{d} {t}", "%Y-%m-%d %H:%M")`: `%Y` is exactly
four digits, `%m`/`%d`/`%H`/`%M` are one or two digits within their ranges,
the day is validated against the month, and any mismatch raises `ValueError`
(= `none`).  On success the comparison key of the timestamp is returned. -/
def parseApptDT (d t : String) : Option Nat :=
  match pySplitOn d '-', pySplitOn t ':' with
  | [ys, ms, ds], [hs, mis] =>
    match parseDigits ys, parseDigits ms, parseDigits ds,
          parseDigits hs, parseDigits mis with
    | some y, some m, some dd, some h, some mi =>
      if ys.length == 4 && 1 ≤ y &&
         ms.length ≤ 2 && 1 ≤ m && m ≤ 12 &&
         ds.length ≤ 2 && 1 ≤ dd && dd ≤ daysInMonth y m &&
         hs.length ≤ 2 && h ≤ 23 &&
         mis.length ≤ 2 && mi ≤ 59 then
        some (apptKeyVal y m dd h mi)
      else none
    | _, _, _, _, _ => none
  | _, _ => none

/-! ## Job evaluator (`bot/integrated_bot.py`, `should_accept_job`) -/

/-- The board-row fields `should_accept_job` reads from the job dict. -/
structure Job where
  language : String
  duration : String
  status : String
  job_type : String
  ref : String
  submitted : String
  appt_date : String
  appt_time : String
deriving Repr, DecidableEq

/-- The label of each early-`return False` (with its log line) in
`should_accept_job`, in source order. -/
inductive Gate where
  | notTelephone
  | notOpen
  | missingFields
  | badLanguage
  | badDuration
  | excludedKeyword
  | apptPast
  | languageTooLong
deriving Repr, DecidableEq

/-- The `required_fields` list of `should_accept_job` step 3, paired with the
field values they select. -/
def requiredFieldVals (j : Job) : List (String × String) :=
  [("language", j.language), ("duration", j.duration), ("ref", j.ref),
   ("submitted", j.submitted), ("appt_date", j.appt_date),
   ("appt_time", j.appt_time)]

/-- The `missing_fields` accumulator of `should_accept_job` step 3: required
fields whose stripped value is empty. -/
def missingRequired (j : Job) : List String :=
  ((requiredFieldVals j).filter (fun p => pyStrip p.2 == "")).map (fun p => p.1)

/-- The `excluded_keywords` list of `should_accept_job` step 6. -/
def excludedKeywords : List String :=
  ["face-to-face", "face to face", "in-person", "onsite", "physical", "office"]

/-- The appointment timestamp parse of `should_accept_job` step 7, applied to
the stripped `appt_date`/`appt_time` fields. -/
def parseApptOf (j : Job) : Option Nat :=
  parseApptDT (pyStrip j.appt_date) (pyStrip j.appt_time)

/-- `should_accept_job(job_data, details_text)` as a first-failing-gate
function: `none` means the final `return True`, `some g` the early
`return False` labelled `g`.  `now` is the comparison key of
`datetime.now()` read in step 7. -/
def should_accept_gates (j : Job) (details_text : String) (now : Nat) :
    Option Gate :=
  let language := pyStrip (pyLower j.language)
  let duration := pyStrip j.duration
  let status := pyStrip (pyLower j.status)
  let job_type := pyStrip (pyLower j.job_type)
  if !strContains job_type "telephone" && !strContains job_type "phone" then
    some .notTelephone
  else if status != "open" then
    some .notOpen
  else if !(missingRequired j).isEmpty then
    some .missingFields
  else if language == "" || language.length < 2 then
    some .badLanguage
  else
    match parseDurationNum duration with
    | none => some .badDuration
    | some dn =>
      if dn == 0 || 8 < dn then
        some .badDuration
      else if excludedKeywords.any (fun k => strContains (pyLower details_text) k) then
        some .excludedKeyword
      else
        match parseApptOf j with
        | some k =>
          if k < now then some .apptPast
          else if 50 < language.length then some .languageTooLong
          else none
        | none =>
          if 50 < language.length then some .languageTooLong
          else none

/-- The boolean result of `should_accept_job`. -/
def should_accept_job (j : Job) (details_text : String) (now : Nat) : Bool :=
  (should_accept_gates j details_text now).isNone

/-- Gates 1 to 6 of `should_accept_job`: every check before the appointment
comparison, none of which reads the clock. -/
def preGates (j : Job) (details_text : String) : Option Gate :=
  let language := pyStrip (pyLower j.language)
  let duration := pyStrip j.duration
  let status := pyStrip (pyLower j.status)
  let job_type := pyStrip (pyLower j.job_type)
  if !strContains job_type "telephone" && !strContains job_type "phone" then
    some .notTelephone
  else if status != "open" then
    some .notOpen
  else if !(missingRequired j).isEmpty then
    some .missingFields
  else if language == "" || language.length < 2 then
    some .badLanguage
  else
    match parseDurationNum duration with
    | none => some .badDuration
    | some dn =>
      if dn == 0 || 8 < dn then
        some .badDuration
      else if excludedKeywords.any (fun k => strContains (pyLower details_text) k) then
        some .excludedKeyword
      else none

/-- Gate 8 of `should_accept_job`: the language-length sanity check, also
independent of the clock. -/
def lateGate (j : Job) : Option Gate :=
  if 50 < (pyStrip (pyLower j.language)).length then some .languageTooLong
  else none

/-- The clock-dependent part of `should_accept_job`: step 7's
"appointment is in the past" test. -/
def apptPastCheck (j : Job) (now : Nat) : Bool :=
  match parseApptOf j with
  | some k => decide (k < now)
  | none => false


/-! ## Rejection reasons (`bot/integrated_bot.py`, `check_jobs_on_page`) -/

/-- The rejection-reason cascade of `check_jobs_on_page` (computed after
`should_accept_job` returned `False`): category, then status, then language,
then a generic fallback. -/
def rejection_reason (j : Job) : String :=
  let job_type := pyLower j.job_type
  let status := pyLower j.status
  let language := j.language
  if !strContains job_type "telephone" && !strContains job_type "phone" then
    "Not a telephone interpreting job"
  else if status != "open" then
    s!"Job status is {status} (not open)"
  else if language == "" || language.length < 2 then
    "Invalid or missing language"
  else
    "Does not meet quality requirements"

/-! ## In-process supervisor (`bot_control.py`, class `BotState`) -/

/-- The `BotState` object: the `running` flag and the worker thread handle
(`none` = `self.thread is None`, `some alive` = a thread whose
`is_alive()` returns `alive`). -/
structure BotStateM where
  running : Bool
  thread : Option Bool
deriving Repr, DecidableEq

/-- `BotState.is_running`: returns `True` when a live thread exists; lazily
resets `running`/`thread` when the recorded thread has died; leaves state
untouched when no thread is recorded. -/
def BotStateM.is_running : BotStateM → Bool × BotStateM
  | ⟨r, some true⟩ => (true, ⟨r, some true⟩)
  | ⟨_, some false⟩ => (false, ⟨false, none⟩)
  | ⟨r, none⟩ => (false, ⟨r, none⟩)

/-- `BotState.start`: refuses when a live thread exists, otherwise spawns a
new (live) worker thread and sets `running`. -/
def BotStateM.start : BotStateM → Bool × BotStateM
  | ⟨_, some true⟩ => (false, ⟨true, some true⟩)
  | _ => (true, ⟨true, some true⟩)

/-- `BotState.stop`: joins a live thread (bounded wait) and clears the
handle; even with no live thread it clears state; returns `True` on every
path. -/
def BotStateM.stop : BotStateM → Bool × BotStateM
  | ⟨_, some true⟩ => (true, ⟨false, none⟩)
  | _ => (true, ⟨false, none⟩)

/-! ## Session rows and API handlers (`bot_control.py`) -/

/-- One row of the `bot_sessions` table, with the fields the handlers
touch.  Timestamps are abstract `Nat` instants. -/
structure SessionRow where
  id : String
  session_name : String
  status : String
  login_status : String
  total_checks : Nat
  total_accepted : Nat
  total_rejected : Nat
  end_time : Option Nat
deriving Repr, DecidableEq

/-- `db.query(BotSession).filter(BotSession.status == "running").first()`. -/
def firstRunning : List SessionRow → Option SessionRow
  | [] => none
  | r :: rs => if r.status = "running" then some r else firstRunning rs

/-- Mutate the first row with the given id (SQLAlchemy `filter(id == sid).first()`
followed by attribute writes); no row, no change. -/
def updateFirst (db : List SessionRow) (sid : String)
    (f : SessionRow → SessionRow) : List SessionRow :=
  match db with
  | [] => []
  | r :: rs => if r.id = sid then f r :: rs else r :: updateFirst rs sid f

/-- Mutate the first row whose status is "running". -/
def updateFirstRunning (db : List SessionRow)
    (f : SessionRow → SessionRow) : List SessionRow :=
  match db with
  | [] => []
  | r :: rs =>
    if r.status = "running" then f r :: rs else r :: updateFirstRunning rs f

/-- The JSON body the worker POSTs to `/api/bot/realtime-update`: `type`,
and the `data` dict's optional keys (`dict.get` with the session's current
value as default). -/
structure UpdatePayload where
  utype : String
  session_id : Option String
  status : Option String
  login_status : Option String
  total_checks : Option Nat
  total_accepted : Option Nat
  total_rejected : Option Nat
deriving Repr, DecidableEq

/-- `receive_realtime_update`, the second handler registered on
`POST /realtime-update` (line 480; under FastAPI first-match routing the
first registration at line 227 receives the requests): on a
`database_update` carrying a session id, overwrite the stored session's
status, login status and counters with whatever the payload reports,
defaulting each absent key to the stored value.  No staleness check. -/
def receive_realtime_update (db : List SessionRow) (u : UpdatePayload) :
    List SessionRow :=
  if u.utype = "database_update" then
    match u.session_id with
    | some sid =>
      updateFirst db sid (fun r =>
        { r with
          status := u.status.getD r.status
          login_status := u.login_status.getD r.login_status
          total_checks := u.total_checks.getD r.total_checks
          total_accepted := u.total_accepted.getD r.total_accepted
          total_rejected := u.total_rejected.getD r.total_rejected })
    | none => db
  else db

/-- The SQL dialect of the configured engine.  `connection.py` is
PostgreSQL-only (`USE_POSTGRESQL = True`, a `postgresql://` `DATABASE_URL`
with no SQLite fallback). -/
inductive SqlDialect where
  | postgres
  | sqlite
deriving Repr, DecidableEq

/-- The dialect the backend actually runs on. -/
def configuredDialect : SqlDialect := SqlDialect.postgres

/-- The row-level effect of a successful SQLite
`INSERT OR REPLACE INTO bot_sessions`: the row with the same primary key is
replaced whole, or the row is inserted. -/
def upsertReplace (db : List SessionRow) (row : SessionRow) : List SessionRow :=
  if db.any (fun r => r.id == row.id) then
    db.map (fun r => if r.id = row.id then row else r)
  else db ++ [row]

/-- `db.execute(text("INSERT OR REPLACE INTO bot_sessions ..."))`:
`INSERT OR REPLACE` is SQLite syntax, so on a PostgreSQL engine the
statement raises a syntax error instead of writing. -/
def execInsertOrReplace (dialect : SqlDialect) (db : List SessionRow)
    (row : SessionRow) : Except String (List SessionRow) :=
  match dialect with
  | .sqlite => .ok (upsertReplace db row)
  | .postgres => .error "syntax error at or near OR"

/-- `realtime_update` — the FIRST handler registered on
`POST /api/bot/realtime-update` (line 227), hence the one FastAPI's
first-match routing dispatches every worker callback to (the
`receive_realtime_update` registration at line 480 is shadowed).  On a
`database_update` whose `data` carries a truthy session id it attempts an
`INSERT OR REPLACE` with the payload's values (defaults: status
`running`, login status `unknown`, counters 0) and a freshly generated
timestamp-derived session name (`genName`); the inner
`except Exception` swallows any database error, leaving the table
unchanged.  Every other payload type only broadcasts. -/
def realtime_update (dialect : SqlDialect) (genName : String)
    (db : List SessionRow) (u : UpdatePayload) : List SessionRow :=
  if u.utype = "database_update" then
    match u.session_id with
    | some sid =>
      if sid = "" then db
      else
        match execInsertOrReplace dialect db
            ⟨sid, genName, u.status.getD "running",
             u.login_status.getD "unknown", u.total_checks.getD 0,
             u.total_accepted.getD 0, u.total_rejected.getD 0, none⟩ with
        | .ok db2 => db2
        | .error _ => db
    | none => db
  else db

/-- `POST /bot/stop` (`stop_bot`): 400 when no session row is `running`,
otherwise immediately (optimistically) mark the first running row
`stopped` with an end time, then go kill worker processes. -/
def stop_bot (db : List SessionRow) (now : Nat) :
    Except (Nat × String) (List SessionRow) :=
  match firstRunning db with
  | none => .error (400, "No active bot session found")
  | some _ =>
    .ok (updateFirstRunning db (fun r =>
      { r with status := "stopped", end_time := some now }))

/-- The `BotStatusResponse` payload of `GET /bot/status`. -/
structure BotStatusResponse where
  is_running : Bool
  session_id : Option String
  session_name : String
  status : String
  login_status : String
  total_checks : Nat
  total_accepted : Nat
  total_rejected : Nat
deriving Repr, DecidableEq

/-- `GET /bot/status` (`get_bot_status`): consult `bot_state.is_running()`;
when the bot is not running return the synthesized "not started" payload
without touching the database; when running, join with the first `running`
session row when one exists, else a synthesized "starting" payload. -/
def get_bot_status (bs : BotStateM) (db : List SessionRow) :
    BotStatusResponse × BotStateM :=
  let (isRun, bs1) := bs.is_running
  if isRun = false then
    (⟨false, none, "No active session", "stopped", "not_started", 0, 0, 0⟩, bs1)
  else
    match firstRunning db with
    | some s =>
      (⟨isRun, some s.id, s.session_name, s.status, s.login_status,
        s.total_checks, s.total_accepted, s.total_rejected⟩, bs1)
    | none =>
      (⟨isRun, none, "Starting...", "starting", "attempting", 0, 0, 0⟩, bs1)

/-- The `{status, running}` response of `POST /bot/toggle`. -/
structure ToggleResponse where
  status : String
  running : Bool
deriving Repr, DecidableEq

/-- `UPDATE bot_sessions SET status = 'stopped' WHERE status = 'running'`
(the toggle stop path's database sweep). -/
def markAllRunningStopped (db : List SessionRow) : List SessionRow :=
  db.map (fun r => if r.status = "running" then { r with status := "stopped" } else r)

/-- `POST /bot/toggle` (`toggle_bot`): dispatch on `bot_state.is_running()`;
start or stop through `BotState`; on a successful stop sweep running rows to
stopped; then recompute the response from `bot_state.is_running()`. -/
def toggle_bot (bs : BotStateM) (db : List SessionRow) :
    ToggleResponse × BotStateM × List SessionRow :=
  let (isRun, bs1) := bs.is_running
  if isRun = false then
    let (_, bs2) := bs1.start
    let (isRun2, bs3) := bs2.is_running
    (if isRun2 then ⟨"Bot started", true⟩ else ⟨"Bot stopped", false⟩, bs3, db)
  else
    let (ok, bs2) := bs1.stop
    let db1 := if ok then markAllRunningStopped db else db
    let (isRun2, bs3) := bs2.is_running
    (if isRun2 then ⟨"Bot started", true⟩ else ⟨"Bot stopped", false⟩, bs3, db1)

/-! ## Dependency health check (`start_bot` and `connection_monitor.py`) -/

/-- The `ServiceType` enum of `connection_monitor.py`. -/
inductive ServiceType where
  | database
  | redis
  | bot_process
  | external_api
  | websocket
deriving Repr, DecidableEq, BEq

/-- The `ConnectionStatus` enum of `connection_monitor.py`. -/
inductive ConnStatus where
  | healthy
  | unhealthy
  | unknown
  | connecting
  | disconnected
deriving Repr, DecidableEq, BEq

/-- A Python dictionary key as used around the health check: either a plain
string or a `ServiceType` enum member.  Python `==` between a string and an
`Enum` member is `False` (no cross-type equality), which this equality
reproduces. -/
inductive PyKey where
  | pstr (s : String)
  | pservice (t : ServiceType)
deriving Repr, DecidableEq

/-- Python `==` on such keys: strings compare as strings, enum members as
members, and a string never equals an enum member. -/
def pyKeyEq : PyKey → PyKey → Bool
  | .pstr a, .pstr b => a == b
  | .pservice a, .pservice b => a == b
  | _, _ => false

/-- Python `key in d` for a dict with `PyKey` keys. -/
def pyDictHas (d : List (PyKey × ConnStatus)) (k : PyKey) : Bool :=
  d.any (fun p => pyKeyEq p.1 k)

/-- The `critical_services` string list of `start_bot`. -/
def criticalServices : List String :=
  ["database", "external_api", "websocket"]

/-- The dict returned by `connection_monitor.check_all_services()`: one entry
per `ServiceType` member, keyed by the enum member itself. -/
def monitorDict (f : ServiceType → ConnStatus) : List (PyKey × ConnStatus) :=
  [(.pservice .database, f .database), (.pservice .redis, f .redis),
   (.pservice .bot_process, f .bot_process),
   (.pservice .external_api, f .external_api),
   (.pservice .websocket, f .websocket)]

/-- The `unhealthy_services` computation of `start_bot`: with a falsy
(empty) status dict every critical service is unhealthy; otherwise each
critical name is tested with `service in connection_status and
connection_status[service].status != 'healthy'`.  Reaching the right-hand
side would evaluate `.status` on a `ConnectionStatus` enum member, an
attribute it does not have, raising `AttributeError` (the `.error` case). -/
def unhealthyServices (cs : List (PyKey × ConnStatus)) :
    Except String (List String) :=
  if cs.isEmpty then .ok criticalServices
  else
    criticalServices.foldl
      (fun acc s => do
        let l ← acc
        if pyDictHas cs (.pstr s) then
          .error "AttributeError: ConnectionStatus object has no attribute status"
        else
          pure l)
      (.ok [])

/-- The module-level process tracking plus session table visible to
`start_bot`/`stop_bot`. -/
structure ApiState where
  botProcessLive : Bool
  sessions : List SessionRow
deriving Repr, DecidableEq

/-- What a `POST /bot/start` call returns. -/
inductive StartResult where
  | ok (sid : String)
  | httpError (code : Nat) (detail : String)
deriving Repr, DecidableEq

/-- `POST /bot/start` (`start_bot`) as one atomic request: 400 when the
tracked process is alive; then, inside `try`, the dependency health check —
any exception there (including the 503 `HTTPException` raised for unhealthy
services) is caught by the handler's `except Exception`, which re-raises a
500 "Failed to start bot" (marking the session `error` only when one was
already created).  On the healthy path a session row is created `starting`,
the worker process is spawned (`spawnOk` models `subprocess.Popen`
succeeding) and the row is promoted to `running`/`attempting`. -/
def start_bot (st : ApiState) (cs : List (PyKey × ConnStatus))
    (spawnOk : Bool) (sid sname : String) : StartResult × ApiState :=
  if st.botProcessLive then
    (.httpError 400 "Bot is already running", st)
  else
    match unhealthyServices cs with
    | .error e =>
      (.httpError 500 s!"Failed to start bot: {e}", st)
    | .ok us =>
      if us.isEmpty = false then
        (.httpError 500
          "Failed to start bot: 503: Cannot start bot: Critical services are not healthy",
         st)
      else
        let row : SessionRow :=
          ⟨sid, sname, "starting", "not_started", 0, 0, 0, none⟩
        if spawnOk then
          (.ok sid,
           ⟨true, st.sessions ++
             [{ row with status := "running", login_status := "attempting" }]⟩)
        else
          (.httpError 500 "Failed to start bot: Failed to start bot process",
           ⟨st.botProcessLive, st.sessions ++ [{ row with status := "error" }]⟩)

/-! ## Interleaved start/toggle transition system (`bot_control.py`)

`start_bot` is an async handler: it reads the `bot_process` liveness check at
one point, then suspends on `await connection_monitor.check_all_services()`,
creates the session row, suspends again on `await send_realtime_update(...)`,
and only then spawns the process and marks the row `running`.  Concurrent
requests on the event loop interleave at those `await` points, and no lock
guards the check-then-create-then-spawn sequence (`BotState.lock` is used
only by the toggle path).  The transition system below has one step per
segment between suspension points. -/

/-- The loop-local variables of the infinite job-checking loop. -/
structure LoopState where
  cycle : Nat
  consecutiveErrors : Nat
  totalCycles : Nat
  totalChecks : Nat
  totalAccepted : Nat
  totalRejected : Nat
deriving Repr, DecidableEq

/-- Loop state on entry to the `while True` loop. -/
def initLoop : LoopState :=
  ⟨0, 0, 0, 0, 0, 0⟩

/-- The observable events of one cycle that the claims mention. -/
inductive LoopEvent where
  | cycleError
  | maxErrorsReached
  | slept (seconds : Nat)
deriving Repr, DecidableEq, BEq

/-- The environment of one cycle: whether the cycle body raised, whether the
raise happened after `total_checks += 1`, and the cycle's accept/reject
tallies (relevant on the success path). -/
structure CycleEnv where
  fails : Bool
  checkedBeforeFail : Bool
  accepted : Nat
  rejected : Nat
deriving Repr, DecidableEq

/-- `max_consecutive_errors` from the source. -/
def maxConsecutiveErrors : Nat := 10

/-- One iteration of the `while True` loop of `run_bot_with_session`.  The
`try` block begins with `cycle += 1` and `consecutive_errors = 0` (the reset
is unconditional, not gated on the previous cycle having succeeded); on an
exception the `except` block runs `consecutive_errors += 1`, compares the
counter against the ceiling (sleeping 30s and resetting on a hit), and
otherwise sleeps the progressive backoff `min(5 + consecutive_errors * 2,
30)`; on success totals are accumulated and the configured interval
(`sleepInterval`) is slept. -/
def cycleStep (sleepInterval : Nat) (s : LoopState) (e : CycleEnv) :
    LoopState × List LoopEvent :=
  let cycle := s.cycle + 1
  let consecutive := 0
  if e.fails then
    let consecutive := consecutive + 1
    let checks := s.totalChecks + (if e.checkedBeforeFail then 1 else 0)
    if maxConsecutiveErrors ≤ consecutive then
      ({ s with cycle := cycle, consecutiveErrors := 0, totalChecks := checks },
       [.cycleError, .maxErrorsReached, .slept 30])
    else
      ({ s with cycle := cycle, consecutiveErrors := consecutive,
                totalChecks := checks },
       [.cycleError, .slept (min (5 + consecutive * 2) 30)])
  else
    (⟨cycle, consecutive, s.totalCycles + 1, s.totalChecks + 1,
      s.totalAccepted + e.accepted, s.totalRejected + e.rejected⟩,
     [.slept sleepInterval])

/-- Run the loop through a list of cycle environments, collecting events.
The function is total: no environment terminates the loop (the only exits in
the source are `KeyboardInterrupt` and an operator stop). -/
def runCycles (sleepInterval : Nat) (s : LoopState) :
    List CycleEnv → LoopState × List LoopEvent
  | [] => (s, [])
  | e :: es =>
    let (s1, evs) := cycleStep sleepInterval s e
    let (s2, evs') := runCycles sleepInterval s1 es
    (s2, evs ++ evs')

/-- A cycle environment that raises (after the `total_checks` increment). -/
def failingCycle : CycleEnv :=
  ⟨true, true, 0, 0⟩

/-- Does an event list record the "max errors reached" event? -/
def hasMaxErrEvent : List LoopEvent → Bool
  | [] => false
  | .maxErrorsReached :: _ => true
  | _ :: es => hasMaxErrEvent es

/-! ## Worker counter reporting (`bot/real_atoz_bot.py`, `main`) and the
callback store (`receive_realtime_update`) -/

/-- One cycle of the `real_atoz_bot` checking loop as seen by the counter
accumulators: `ok` is whether the cycle body completed (emitting its
`database_update`), and `accepted`/`rejected` are the cycle's tallies. -/
structure WorkerCycleEnv where
  ok : Bool
  accepted : Nat
  rejected : Nat
deriving Repr, DecidableEq

/-- The `database_update` payload `update_database` posts: the session id,
a status, all three cumulative counters, and a login status. -/
def mkUpd (sid st : String) (c a r : Nat) (ls : String) : UpdatePayload :=
  ⟨"database_update", some sid, some st, some ls, some c, some a, some r⟩

/-- The updates emitted by the checking loop from accumulators `(c, a, r)`:
each cycle increments `check_count` and adds its tallies, a completed cycle
posts the cumulated values with status `running`, and the `finally` block
posts a last update with status `stopped`. -/
def cycleUpds (sid : String) (c a r : Nat) :
    List WorkerCycleEnv → List UpdatePayload
  | [] => [mkUpd sid "stopped" c a r "success"]
  | e :: es =>
    let c' := c + 1
    let a' := a + e.accepted
    let r' := r + e.rejected
    if e.ok then
      mkUpd sid "running" c' a' r' "success" :: cycleUpds sid c' a' r' es
    else
      cycleUpds sid c' a' r' es

/-- The full `database_update` sequence of one worker run: the `starting`
update, the post-login `running` update, then the per-cycle updates. -/
def workerUpdates (sid : String) (envs : List WorkerCycleEnv) :
    List UpdatePayload :=
  mkUpd sid "starting" 0 0 0 "attempting" ::
  mkUpd sid "running" 0 0 0 "success" ::
  cycleUpds sid 0 0 0 envs

/-- Apply a list of callback updates through `receive_realtime_update`,
collecting the database after each one. -/
def applyAll (db : List SessionRow) : List UpdatePayload → List (List SessionRow)
  | [] => []
  | u :: us =>
    let db' := receive_realtime_update db u
    db' :: applyAll db' us

/-- The counter triple of the session row at the head of the table. -/
def dbCounters (db : List SessionRow) : Nat × Nat × Nat :=
  match db with
  | [] => (0, 0, 0)
  | r :: _ => (r.total_checks, r.total_accepted, r.total_rejected)

/-- The counter triple a payload reports (all three are present in every
`database_update` the worker posts). -/
def updCounters (u : UpdatePayload) : Nat × Nat × Nat :=
  (u.total_checks.getD 0, u.total_accepted.getD 0, u.total_rejected.getD 0)

/-- Componentwise order on counter triples. -/
def ctrLE (x y : Nat × Nat × Nat) : Prop :=
  x.1 ≤ y.1 ∧ x.2.1 ≤ y.2.1 ∧ x.2.2 ≤ y.2.2

/-! ## Concrete inputs used by the claims -/

/-- The job of the spec's concrete scenario A (the dict keys map onto the
`JobRecord` fields: `category` is the row's job type). -/
def jobScenarioA : Job :=
  ⟨"Spanish", "1 hour", "matched", "Telephone interpreting", "R1", "x",
   "2099-01-01", "10:00"⟩

/-- Scenario A's job with the status the availability gate actually accepts. -/
def jobScenarioAOpen : Job :=
  { jobScenarioA with status := "open" }

/-- Scenario A's job, open, but with an appointment in the year 2000. -/
def jobPastAppt : Job :=
  { jobScenarioAOpen with appt_date := "2000-01-01" }

/-- A clock reading strictly after `jobPastAppt`'s appointment. -/
def nowAfter2000 : Nat := apptKeyVal 2001 1 1 0 0

/-- A clock reading at which `jobPastAppt`'s appointment is still in the
future (the minimal key). -/
def nowBefore2000 : Nat := 0

/-- A face-to-face job that also misses a required field (empty language). -/
def jobFaceToFace : Job :=
  ⟨"", "1 hour", "matched", "Face to Face interpreting", "R1", "x",
   "2099-01-01", "10:00"⟩

/-- A session row in status `running`, as left by a successful start. -/
def rowRunningS1 : SessionRow :=
  ⟨"S1", "sess", "running", "success", 5, 2, 3, none⟩

/-- `rowRunningS1` after `stop_bot` optimistically marked it stopped at 100. -/
def rowStoppedS1 : SessionRow :=
  { rowRunningS1 with status := "stopped", end_time := some 100 }

/-- A late worker callback still reporting `running` for session `S1`. -/
def lateRunningUpd : UpdatePayload :=
  mkUpd "S1" "running" 5 2 3 "success"

/-- Factoring of the evaluator: the gates before step 7 (clock-free), then
the appointment-in-the-past test (the only clock read), then gate 8. -/
theorem gates_split (j : Job) (details_text : String) (now : Nat) :
    should_accept_gates j details_text now =
      match preGates j details_text with
      | some g => some g
      | none =>
        match parseApptOf j with
        | some k => if k < now then some .apptPast else lateGate j
        | none => lateGate j := by
  cases h1 : (!strContains (pyStrip (pyLower j.job_type)) "telephone" &&
      !strContains (pyStrip (pyLower j.job_type)) "phone") with
  | true => simp [should_accept_gates, preGates, h1]
  | false =>
  cases h2 : (pyStrip (pyLower j.status) != "open") with
  | true => simp [should_accept_gates, preGates, h2, h1]
  | false =>
  cases h3 : (!(missingRequired j).isEmpty) with
  | true => simp [should_accept_gates, preGates, h3, h2, h1]
  | false =>
  cases h4 : (pyStrip (pyLower j.language) == "" ||
      (pyStrip (pyLower j.language)).length < 2) with
  | true => simp [should_accept_gates, preGates, h4, h3, h2, h1]
  | false =>
  cases hd : parseDurationNum (pyStrip j.duration) with
  | none => simp [should_accept_gates, preGates, hd, h4, h3, h2, h1]
  | some dn =>
  cases h5 : (dn == 0 || 8 < dn : Bool) with
  | true => simp [should_accept_gates, preGates, hd, h5, h4, h3, h2, h1]
  | false =>
  cases h6 : (excludedKeywords.any
      (fun k => strContains (pyLower details_text) k)) with
  | true => simp [should_accept_gates, preGates, hd, h6, h5, h4, h3, h2, h1]
  | false =>
  cases ha : parseApptOf j with
  | none =>
    simp [should_accept_gates, preGates, lateGate, ha, hd, h6, h5, h4, h3, h2, h1]
  | some k =>
    simp [should_accept_gates, preGates, lateGate, ha, hd, h6, h5, h4, h3, h2, h1]

/-- C2 (counterexample): on the spec's scenario-A job — status `"matched"` —
the evaluator returns reject at gate 2, because the availability gate accepts
exactly the status `"open"`; `"matched"` does not satisfy it. -/
theorem c2_matched_rejected :
    should_accept_gates jobScenarioA "remote telephone job" 0 =
      some Gate.notOpen ∧
    should_accept_job jobScenarioA "remote telephone job" 0 = false := by
  constructor <;> decide

/-- C2 (amended): with status `"open"` the scenario-A job is accepted at
every clock reading not past its 2099-01-01 10:00 appointment (and rejected
once the clock passes it). -/
theorem c2_open_accepted (now : Nat) :
    should_accept_job jobScenarioAOpen "remote telephone job" now =
      !decide (apptKeyVal 2099 1 1 10 0 < now) := by
  unfold should_accept_job
  rw [gates_split]
  have hpre : preGates jobScenarioAOpen "remote telephone job" = none := by
    decide
  have ha : parseApptOf jobScenarioAOpen = some (apptKeyVal 2099 1 1 10 0) := by
    decide
  have hl : lateGate jobScenarioAOpen = none := by decide
  rw [hpre, ha, hl]
  by_cases h : apptKeyVal 2099 1 1 10 0 < now <;> simp [h]

/-- C3 (counterexample): the evaluator is not independent of the wall clock:
the same (job, detail_text, config) triple — an open telephone job with a
2000-01-01 appointment — is accepted when `datetime.now()` reads before the
appointment and rejected when it reads after it. -/
theorem c3_clock_dependent :
    should_accept_job jobPastAppt "remote telephone job" nowBefore2000 = true ∧
    should_accept_job jobPastAppt "remote telephone job" nowAfter2000 = false := by
  constructor <;> decide

/-- C3 (amended): the evaluator is deterministic in (job, detail_text,
clock): the clock influences the decision only through the step-7
appointment-in-the-past comparison, so two calls at clock readings on which
that comparison agrees return identical decisions. -/
theorem c3_deterministic_given_clock (j : Job) (dt : String) (n n' : Nat)
    (h : apptPastCheck j n = apptPastCheck j n') :
    should_accept_gates j dt n = should_accept_gates j dt n' := by
  rw [gates_split, gates_split]
  cases hp : preGates j dt with
  | some g => rfl
  | none =>
    cases ha : parseApptOf j with
    | none => rfl
    | some k =>
      unfold apptPastCheck at h
      rw [ha] at h
      have hiff : (k < n) ↔ (k < n') := by
        simpa using decide_eq_decide.mp h
      simp [hiff]

/-- Witness for `c3_deterministic_given_clock` at a concrete job and two
concrete clock readings. -/
theorem c3_deterministic_witness :
    apptPastCheck jobScenarioAOpen 0 = apptPastCheck jobScenarioAOpen 1 ∧
    should_accept_gates jobScenarioAOpen "remote telephone job" 0 =
      should_accept_gates jobScenarioAOpen "remote telephone job" 1 :=
  ⟨by decide,
   c3_deterministic_given_clock jobScenarioAOpen "remote telephone job" 0 1
     (by decide)⟩

/-- C8: a job that fails the accepted-category gate and is also missing
required fields is rejected at the category gate (gate 1 precedes the
field-completeness gate 3), and the rejection reason computed by
`check_jobs_on_page` names the category gate, not the missing fields. -/
theorem c8_category_gate_first (j : Job) (dt : String) (now : Nat)
    (hcat : strContains (pyStrip (pyLower j.job_type)) "telephone" = false ∧
            strContains (pyStrip (pyLower j.job_type)) "phone" = false)
    (hcatRaw : strContains (pyLower j.job_type) "telephone" = false ∧
               strContains (pyLower j.job_type) "phone" = false)
    (hmiss : (missingRequired j).isEmpty = false) :
    should_accept_gates j dt now = some Gate.notTelephone ∧
    should_accept_job j dt now = false ∧
    rejection_reason j = "Not a telephone interpreting job" := by
  obtain ⟨h1, h2⟩ := hcat
  obtain ⟨h3, h4⟩ := hcatRaw
  refine ⟨?_, ?_, ?_⟩
  · unfold should_accept_gates
    simp [h1, h2]
  · unfold should_accept_job should_accept_gates
    simp [h1, h2]
  · unfold rejection_reason
    simp [h3, h4]

/-- Witness for `c8_category_gate_first`: a face-to-face job whose language
field is also empty. -/
theorem c8_category_gate_first_witness :
    (missingRequired jobFaceToFace).isEmpty = false ∧
    should_accept_gates jobFaceToFace "face to face job" 0 =
      some Gate.notTelephone ∧
    rejection_reason jobFaceToFace = "Not a telephone interpreting job" :=
  ⟨by decide,
   (c8_category_gate_first jobFaceToFace "face to face job" 0
     ⟨by decide, by decide⟩ ⟨by decide, by decide⟩ (by decide)).1,
   (c8_category_gate_first jobFaceToFace "face to face job" 0
     ⟨by decide, by decide⟩ ⟨by decide, by decide⟩ (by decide)).2.2⟩

/-- C9: `GET /bot/status` with no worker thread and an empty session table
returns the synthesized payload — `is_running=false`, `session_id=null`,
`login_status="not_started"` — rather than an error (the handler is total on
this path and never consults the database). -/
theorem c9_status_without_session :
    (get_bot_status ⟨false, none⟩ []).1 =
      ⟨false, none, "No active session", "stopped", "not_started", 0, 0, 0⟩ := by
  rfl

/-- C10: `BotState.stop` returns `True` from every supervisor state and
always leaves `running=False` and `thread=None`; consequently the
"Failed to stop bot" branch of `toggle_bot` is unreachable, and a toggle
issued while the bot is running reports `{"Bot stopped", running=false}`. -/
theorem c10_stop_total (bs : BotStateM) (db : List SessionRow) :
    ((BotStateM.stop bs).1 = true ∧
     (BotStateM.stop bs).2.running = false ∧
     (BotStateM.stop bs).2.thread = none) ∧
    ((BotStateM.is_running bs).1 = true →
      (toggle_bot bs db).1 = ⟨"Bot stopped", false⟩) := by
  obtain ⟨r, t⟩ := bs
  constructor
  · rcases t with _ | a
    · exact ⟨rfl, rfl, rfl⟩
    · rcases a <;> exact ⟨rfl, rfl, rfl⟩
  · intro h
    rcases t with _ | a
    · simp [BotStateM.is_running] at h
    · rcases a
      · simp [BotStateM.is_running] at h
      · simp [toggle_bot, BotStateM.is_running, BotStateM.stop]

/-- Witness for `c10_stop_total`: a supervisor with a live worker thread. -/
theorem c10_stop_total_witness :
    (BotStateM.is_running ⟨true, some true⟩).1 = true ∧
    (toggle_bot ⟨true, some true⟩ []).1 = ⟨"Bot stopped", false⟩ :=
  ⟨rfl, (c10_stop_total ⟨true, some true⟩ []).2 rfl⟩

/-- On the configured PostgreSQL engine the live `/realtime-update` handler
never changes the session table: its `INSERT OR REPLACE` raises a syntax
error that the handler's inner `except` swallows. -/
theorem realtime_update_postgres_noop (gn : String) (db : List SessionRow)
    (u : UpdatePayload) :
    realtime_update configuredDialect gn db u = db := by
  unfold realtime_update configuredDialect execInsertOrReplace
  rcases hu : u.session_id with _ | sid
  · split <;> rfl
  · by_cases hs : sid = "" <;> split <;> simp [hs]

/-- C6: once `stop_bot` has optimistically recorded a session as `stopped`,
no sequence of later worker callbacks — whatever statuses or counters they
report — reverts the stored status: every `POST /realtime-update` request is
dispatched to the first-registered handler `realtime_update`, whose
SQLite-syntax `INSERT OR REPLACE` fails on the configured PostgreSQL engine
and is swallowed, so the callback ingress never mutates the table and the
optimistic mark-stopped write stands. -/
theorem c6_optimistic_stop_wins (r : SessionRow) (rs : List SessionRow)
    (now : Nat) (gn : String) (hr : r.status = "running") :
    stop_bot (r :: rs) now =
      .ok ({ r with status := "stopped", end_time := some now } :: rs) ∧
    ∀ us : List UpdatePayload,
      List.foldl (realtime_update configuredDialect gn)
          ({ r with status := "stopped", end_time := some now } :: rs) us =
        { r with status := "stopped", end_time := some now } :: rs := by
  constructor
  · unfold stop_bot firstRunning updateFirstRunning
    rw [if_pos hr, if_pos hr]
  · intro us
    induction us with
    | nil => rfl
    | cons u us ih =>
      simp only [List.foldl, realtime_update_postgres_noop]
      exact ih

/-- Witness for `c6_optimistic_stop_wins`: the running `S1` row, stopped at
time 100, then hit by a late callback still reporting `running`. -/
theorem c6_optimistic_stop_wins_witness :
    rowRunningS1.status = "running" ∧
    stop_bot [rowRunningS1] 100 = .ok [rowStoppedS1] ∧
    List.foldl (realtime_update configuredDialect "g") [rowStoppedS1]
        [lateRunningUpd] = [rowStoppedS1] :=
  ⟨rfl, (c6_optimistic_stop_wins rowRunningS1 [] 100 "g" rfl).1,
   (c6_optimistic_stop_wins rowRunningS1 [] 100 "g" rfl).2 [lateRunningUpd]⟩

/-- C5: the dependency health gate of `start_bot` is dead code: the critical
services are string keys (`'database'`, ...) but `check_all_services`
returns a dict keyed by `ServiceType` enum members, and Python's `==` never
equates a string with an enum member — so `unhealthy_services` is always
empty and, whatever the monitor reports (all services unhealthy included),
`start_bot` proceeds to create a Session and spawn the worker instead of
failing with 503 and creating nothing. -/
theorem c5_health_gate_dead (f : ServiceType → ConnStatus)
    (sid sname : String) :
    unhealthyServices (monitorDict f) = .ok [] ∧
    (start_bot ⟨false, []⟩ (monitorDict f) true sid sname).1 = .ok sid ∧
    (start_bot ⟨false, []⟩ (monitorDict f) true sid sname).2.sessions =
      [⟨sid, sname, "running", "attempting", 0, 0, 0, none⟩] := by
  have h : unhealthyServices (monitorDict f) = .ok [] := rfl
  refine ⟨h, ?_, ?_⟩ <;>
    simp [start_bot, h]

theorem hasMaxErrEvent_append (a b : List LoopEvent) :
    hasMaxErrEvent (a ++ b) = (hasMaxErrEvent a || hasMaxErrEvent b) := by
  induction a with
  | nil => rfl
  | cons e es ih => cases e <;> simp [hasMaxErrEvent, ih]

theorem cycleStep_bounds (si : Nat) (s : LoopState) (e : CycleEnv) :
    (cycleStep si s e).1.consecutiveErrors ≤ 1 ∧
    hasMaxErrEvent (cycleStep si s e).2 = false := by
  unfold cycleStep
  cases hf : e.fails
  · simp [hasMaxErrEvent]
  · simp [hasMaxErrEvent, maxConsecutiveErrors]

theorem runCycles_bounds (si : Nat) :
    ∀ (envs : List CycleEnv) (s : LoopState), s.consecutiveErrors ≤ 1 →
      (runCycles si s envs).1.consecutiveErrors ≤ 1 ∧
      hasMaxErrEvent (runCycles si s envs).2 = false := by
  intro envs
  induction envs with
  | nil => intro s hs; exact ⟨hs, rfl⟩
  | cons e es ih =>
    intro s _
    have hb := cycleStep_bounds si s e
    rcases hc : cycleStep si s e with ⟨s1, evs⟩
    rw [hc] at hb
    have ih1 := ih s1 hb.1
    rcases hr : runCycles si s1 es with ⟨s2, evs2⟩
    rw [hr] at ih1
    simp only [runCycles, hc, hr]
    exact ⟨ih1.1, by rw [hasMaxErrEvent_append, hb.2, ih1.2]; rfl⟩

/-- C4: the consecutive-error counter of the worker loop never accumulates:
`consecutive_errors = 0` runs at the top of every cycle (not only after a
successful one), so after two consecutive failing cycles the counter is 1 —
not 2 as the spec's increment-per-failure policy requires — and the
ceiling-of-10 branch (the distinct "max errors reached" event, the longer
cooldown and the reset) is unreachable on every input.  The loop itself
survives every cycle error, as the totality of `runCycles` over arbitrary
environments shows. -/
theorem c4_error_counter_never_accumulates (si : Nat) :
    (runCycles si initLoop [failingCycle, failingCycle]).1.consecutiveErrors
        = 1 ∧
    ∀ envs : List CycleEnv,
      (runCycles si initLoop envs).1.consecutiveErrors ≤ 1 ∧
      hasMaxErrEvent (runCycles si initLoop envs).2 = false := by
  constructor
  · rfl
  · intro envs
    exact runCycles_bounds si envs initLoop (by decide)

/-- Overwriting a singleton session table with a worker `database_update`
payload for its own session id stores exactly the reported fields. -/
theorem receive_mkUpd (r : SessionRow) (st ls : String) (c a b : Nat) :
    receive_realtime_update [r] (mkUpd r.id st c a b ls) =
      [{ r with status := st, login_status := ls, total_checks := c,
                total_accepted := a, total_rejected := b }] := by
  simp [receive_realtime_update, mkUpd, updateFirst]

theorem ctrLE_refl (x : Nat × Nat × Nat) : ctrLE x x :=
  ⟨Nat.le_refl _, Nat.le_refl _, Nat.le_refl _⟩

theorem ctrLE_trans {x y z : Nat × Nat × Nat} (h1 : ctrLE x y)
    (h2 : ctrLE y z) : ctrLE x z :=
  ⟨Nat.le_trans h1.1 h2.1, Nat.le_trans h1.2.1 h2.2.1,
   Nat.le_trans h1.2.2 h2.2.2⟩

theorem chain_weaken {x y : Nat × Nat × Nat} {l : List (Nat × Nat × Nat)}
    (h : List.Chain ctrLE y l) (hxy : ctrLE x y) :
    List.Chain ctrLE x l := by
  cases h with
  | nil => exact List.Chain.nil
  | cons hyz hl => exact List.Chain.cons (ctrLE_trans hxy hyz) hl

theorem cycleUpds_chain (sid : String) :
    ∀ (envs : List WorkerCycleEnv) (c a b : Nat),
      List.Chain ctrLE (c, a, b) ((cycleUpds sid c a b envs).map updCounters) := by
  intro envs
  induction envs with
  | nil =>
    intro c a b
    exact List.Chain.cons (ctrLE_refl _) List.Chain.nil
  | cons e es ih =>
    intro c a b
    unfold cycleUpds
    cases he : e.ok
    · simp only [he, Bool.false_eq_true, if_false]
      exact chain_weaken (ih (c + 1) (a + e.accepted) (b + e.rejected))
        ⟨Nat.le_succ c, Nat.le_add_right a e.accepted,
         Nat.le_add_right b e.rejected⟩
    · simp only [he, if_true]
      exact List.Chain.cons
        ⟨Nat.le_succ c, Nat.le_add_right a e.accepted,
         Nat.le_add_right b e.rejected⟩
        (ih (c + 1) (a + e.accepted) (b + e.rejected))

theorem applyAll_cycleUpds (r : SessionRow) :
    ∀ (envs : List WorkerCycleEnv) (c a b : Nat),
      (applyAll [r] (cycleUpds r.id c a b envs)).map dbCounters =
        (cycleUpds r.id c a b envs).map updCounters := by
  intro envs
  induction envs generalizing r with
  | nil =>
    intro c a b
    simp only [cycleUpds, applyAll, receive_mkUpd]
    rfl
  | cons e es ih =>
    intro c a b
    unfold cycleUpds
    cases he : e.ok
    · simp only [he, Bool.false_eq_true, if_false]
      exact ih r (c + 1) (a + e.accepted) (b + e.rejected)
    · simp only [he, if_true, applyAll, receive_mkUpd, List.map]
      exact congrArg₂ List.cons rfl
        (ih ({ r with status := "running", login_status := "success", total_checks := c + 1, total_accepted := a + e.accepted, total_rejected := b + e.rejected })
          (c + 1) (a + e.accepted) (b + e.rejected))

/-- C7: across the `database_update` callbacks one worker run emits — the
initial `starting`/`running` reports and each completed cycle's cumulative
counters — the counters stored by `receive_realtime_update` are each
non-decreasing: the worker reports monotone accumulators and the controller
overwrites the stored values with exactly the reported ones. -/
theorem c7_counters_monotone (envs : List WorkerCycleEnv) (r : SessionRow) :
    List.Chain' ctrLE
      ((applyAll [r] (workerUpdates r.id envs)).map dbCounters) := by
  unfold workerUpdates
  simp only [applyAll, receive_mkUpd, List.map]
  rw [applyAll_cycleUpds]
  show List.Chain ctrLE (0, 0, 0) ((0, 0, 0) ::
    (cycleUpds r.id 0 0 0 envs).map updCounters)
  exact List.Chain.cons (ctrLE_refl _) (cycleUpds_chain r.id envs 0 0 0)
